import Mathlib

/-!
Verification development for the VIP monitoring dashboard
(src/frontend/src/App.js).

The dashboard is a React single-page component.  We give it a shallow
embedding as a pure state machine:

* `AppState` mirrors the five `useState` hooks of `App`.
* Each event handler (`fetchAlerts`, `fetchStatus`, `startMonitoring`,
  `stopMonitoring`, `clearAlerts`, `generateMockAlert`) becomes a pure
  function from the outcomes of its HTTP calls and the current state to
  the next state together with the list of HTTP requests it issued.
* Alert JSON objects are embedded as finite maps from field names to
  JSON values (`AlertJson`), because the claims speak about which
  fields the component consumes.
* The `ThreatAlert` card and the `MonitoringStatus` panel become pure
  render functions producing structures whose slots hold the values the
  JSX interpolates.  Locale and number formatting applied by the browser
  (`toLocaleString`, `toLocaleTimeString`, `toFixed`) are presentation
  transforms of a single already-extracted value, so the slots keep the
  raw value.
* The backend (app/backend/server.py) is not part of the available
  sources; where a claim depends on it, the store is modelled from the
  spec and marked as such in its doc comment.
-/

/-- A JSON-ish value as the dashboard sees it inside a fetched alert
object: a string, a number, a boolean or null. -/
inductive JVal where
  | str (s : String)
  | num (q : ℚ)
  | jbool (b : Bool)
  | null
deriving DecidableEq

/-- A fetched alert object: a finite map from field names to values.
`none` plays the role of an absent property (JS `undefined`). -/
def AlertJson : Type := String → Option JVal

/-- JavaScript truthiness of a property value, as tested by
`alert.ai_analysis && ...`: `undefined`, `null`, the empty string,
the number 0 and `false` are falsy, everything else truthy. -/
def truthy : Option JVal → Bool
  | none => false
  | some (JVal.str s) => !(s = "")
  | some (JVal.num q) => !(q = 0)
  | some (JVal.jbool b) => b
  | some JVal.null => false

/-- The `platformIcons` lookup table of App.js (lines 9-13). -/
def platformIcons : String → Option String
  | "Twitter" => some "🐦"
  | "Facebook" => some "📘"
  | "Instagram" => some "📷"
  | _ => none

/-- The `threatColors` lookup table of App.js (lines 16-21). -/
def threatColors : String → Option String
  | "low" => some "bg-green-100 border-green-500 text-green-800"
  | "medium" => some "bg-yellow-100 border-yellow-500 text-yellow-800"
  | "high" => some "bg-orange-100 border-orange-500 text-orange-800"
  | "critical" => some "bg-red-100 border-red-500 text-red-800"
  | _ => none

/-- A JS computed property access `table[v]`: the key is coerced to a
string; only string keys can hit the tables above. -/
def jsLookup (table : String → Option String) : Option JVal → Option String
  | some (JVal.str s) => table s
  | _ => none

/-- The rendered `ThreatAlert` card: one slot per JSX interpolation that
consumes an alert field (App.js lines 57-107).  `aiSection` is `some v`
exactly when the conditional `alert.ai_analysis && ...` block renders,
carrying the displayed `ai_analysis` value. -/
structure Card where
  levelClass : Option String
  platformIcon : Option String
  platformName : Option JVal
  levelBadge : Option JVal
  scoreVal : Option JVal
  authorVal : Option JVal
  contentVal : Option JVal
  reasonVal : Option JVal
  aiSection : Option (Option JVal)
  timeVal : Option JVal
  urlHref : Option JVal
deriving DecidableEq

/-- Shallow embedding of the `ThreatAlert` component (App.js lines
57-107).  Each slot records the alert field the JSX reads there:
`threatColors[alert.threat_level]` for the border class,
`platformIcons[alert.platform]` and `alert.platform` in the header,
`alert.threat_level` in the badge, `alert.score` (displayed as
`(score*100).toFixed(1)`), `alert.author`, `alert.content`,
`alert.reason`, the conditional `alert.ai_analysis` block,
`alert.timestamp` (displayed through `formatTime`) and `alert.url`. -/
def renderThreatAlert (a : AlertJson) : Card :=
  { levelClass := jsLookup threatColors (a "threat_level")
    platformIcon := jsLookup platformIcons (a "platform")
    platformName := a "platform"
    levelBadge := a "threat_level"
    scoreVal := a "score"
    authorVal := a "author"
    contentVal := a "content"
    reasonVal := a "reason"
    aiSection := if truthy (a "ai_analysis") then some (a "ai_analysis") else none
    timeVal := a "timestamp"
    urlHref := a "url" }

/-- The Alert fields named in section 3 of the spec. -/
def specAlertFields : List String :=
  ["id", "platform", "author", "content", "url", "timestamp",
   "score", "threat_level", "reason", "ai_analysis"]

/-- The alert fields the dashboard accesses while rendering an alert
card, transcribed from the source: the nine fields read inside
`ThreatAlert` plus `alert.id`, read by `App` as the React list key
(App.js line 379). -/
def cardReadFields : List String :=
  ["threat_level", "platform", "score", "author", "content",
   "reason", "ai_analysis", "timestamp", "url", "id"]

/-- The monitoring status object held by the dashboard.  The two fields
the `MonitoringStatus` component guards against absence
(`platforms_monitored?.length || 0` and the `last_check` ternary) are
embedded as options. -/
structure Status where
  is_running : Bool
  platforms_monitored : Option (List String)
  alerts_count : Nat
  last_check : Option String
deriving DecidableEq

/-- The initial status of the `useState` hook (App.js lines 178-183):
`is_running: false`, `platforms_monitored: []`, `alerts_count: 0`,
`last_check: null`. -/
def initialStatus : Status :=
  { is_running := false
    platforms_monitored := some []
    alerts_count := 0
    last_check := none }

/-- The Last Check cell of the counters grid: the `--:--` placeholder
when `last_check` is null, otherwise the timestamp (displayed through
`toLocaleTimeString`). -/
inductive LastCheckCell where
  | placeholder
  | time (t : String)
deriving DecidableEq

/-- The rendered `MonitoringStatus` panel (App.js lines 109-174):
the ACTIVE/STOPPED pill, the three counters and the disabled flags of
the Start and Stop buttons. -/
structure StatusPanel where
  runningPill : Bool
  alertsCount : Nat
  platformsCount : Nat
  lastCheck : LastCheckCell
  startDisabled : Bool
  stopDisabled : Bool
deriving DecidableEq

/-- Shallow embedding of the `MonitoringStatus` component (App.js lines
109-174).  `platformsCount` embeds `status.platforms_monitored?.length
|| 0`; `lastCheck` embeds the ternary on `status.last_check`;
`startDisabled` is `disabled={status.is_running}` and `stopDisabled` is
`disabled={!status.is_running}`.  The function is total: no status
value makes it fail. -/
def renderMonitoringStatus (st : Status) : StatusPanel :=
  { runningPill := st.is_running
    alertsCount := st.alerts_count
    platformsCount :=
      match st.platforms_monitored with
      | some l => l.length
      | none => 0
    lastCheck :=
      match st.last_check with
      | some t => LastCheckCell.time t
      | none => LastCheckCell.placeholder
    startDisabled := st.is_running
    stopDisabled := !st.is_running }

/-- The HTTP requests the dashboard can issue, one per axios call site
in App.js, all under the common `${API}` prefix. -/
inductive Req where
  | getAlerts
  | getStatus
  | postStart
  | postStop
  | deleteAlerts
  | getMock
deriving DecidableEq

/-- A piece of an interpolated notification string: a literal template
fragment, a spliced field value, or a spliced score displayed as
`(score * 100).toFixed(1)`. -/
inductive Seg where
  | lit (s : String)
  | val (v : Option JVal)
  | scorePct (v : Option JVal)
deriving DecidableEq

/-- The popup payload passed to `setNotification`. -/
structure Notif where
  kind : String
  title : String
  message : List Seg
  details : List Seg
deriving DecidableEq

/-- The success popup built by `generateMockAlert` (App.js lines
257-262) from `response.data.alert`: the message splices the threat
level and the platform, the details splice the score and the author. -/
def mockSuccessNotif (alertData : AlertJson) : Notif :=
  { kind := "success"
    title := "✅ Test Alert Generated!"
    message :=
      [Seg.lit "Created ", Seg.val (alertData "threat_level"),
       Seg.lit " threat alert from ", Seg.val (alertData "platform")]
    details :=
      [Seg.lit "Score: ", Seg.scorePct (alertData "score"),
       Seg.lit "% | Author: @", Seg.val (alertData "author")] }

/-- The error popup built by the catch branch of `generateMockAlert`
(App.js lines 270-275); `details` splices the JS error message. -/
def mockErrorNotif (errMessage : String) : Notif :=
  { kind := "error"
    title := "❌ Error"
    message := [Seg.lit "Failed to generate test alert"]
    details := [Seg.lit errMessage] }

/-- The dashboard state: the five `useState` hooks of `App` (App.js
lines 177-186). -/
structure AppState where
  alerts : List AlertJson
  status : Status
  loading : Bool
  error : Option String
  notif : Option Notif

/-- The initial dashboard state (App.js lines 177-186). -/
def appInitialState : AppState :=
  { alerts := []
    status := initialStatus
    loading := true
    error := none
    notif := none }

/-- The outcome of one HTTP request as the dashboard observes it:
`some payload` for a 2xx response, `none` for a network or HTTP
failure (the axios promise rejecting). -/
def FetchResult (α : Type) : Type := Option α

/-- `fetchAlerts` (App.js lines 189-198): issue GET /alerts; on
success store the array and clear the error, on failure set the error
string and leave everything else unchanged. -/
def fetchAlerts (res : FetchResult (List AlertJson)) (s : AppState) :
    AppState × List Req :=
  match res with
  | some data => ({ s with alerts := data, error := none }, [Req.getAlerts])
  | none => ({ s with error := some "Failed to fetch alerts" }, [Req.getAlerts])

/-- `fetchStatus` (App.js lines 201-210): issue GET /status; on
success store the status object and clear the error, on failure set the
error string and leave everything else unchanged. -/
def fetchStatus (res : FetchResult Status) (s : AppState) :
    AppState × List Req :=
  match res with
  | some data => ({ s with status := data, error := none }, [Req.getStatus])
  | none => ({ s with error := some "Failed to fetch status" }, [Req.getStatus])

/-- `startMonitoring` (App.js lines 213-221): POST /monitoring/start;
on success re-fetch /status (whose own failures are caught inside
`fetchStatus`), on failure set the error string. -/
def startMonitoring (postOk : Bool) (stRes : FetchResult Status)
    (s : AppState) : AppState × List Req :=
  if postOk then
    let r := fetchStatus stRes s
    (r.1, Req.postStart :: r.2)
  else
    ({ s with error := some "Failed to start monitoring" }, [Req.postStart])

/-- `stopMonitoring` (App.js lines 224-232): POST /monitoring/stop;
on success re-fetch /status, on failure set the error string. -/
def stopMonitoring (postOk : Bool) (stRes : FetchResult Status)
    (s : AppState) : AppState × List Req :=
  if postOk then
    let r := fetchStatus stRes s
    (r.1, Req.postStop :: r.2)
  else
    ({ s with error := some "Failed to stop monitoring" }, [Req.postStop])

/-- `clearAlerts` (App.js lines 235-246): only after `window.confirm`
returns true, DELETE /alerts and then re-fetch /alerts and /status;
when the dialog is declined nothing happens at all.  The two re-fetches
catch their own failures, so the catch branch fires only when the
DELETE itself fails. -/
def clearAlerts (confirmed : Bool) (delOk : Bool)
    (aRes : FetchResult (List AlertJson)) (stRes : FetchResult Status)
    (s : AppState) : AppState × List Req :=
  if confirmed then
    if delOk then
      let r1 := fetchAlerts aRes s
      let r2 := fetchStatus stRes r1.1
      (r2.1, Req.deleteAlerts :: (r1.2 ++ r2.2))
    else
      ({ s with error := some "Failed to clear alerts" }, [Req.deleteAlerts])
  else
    (s, [])

/-- `generateMockAlert` (App.js lines 249-278): GET
/test/generate-mock-alert; on success re-fetch /alerts and /status,
then show the success popup built from `response.data.alert`; on
failure set the error string and show the error popup.  Both branches
schedule `setNotification(null)` after the same timeout; the third
component returns that delay in milliseconds. -/
def generateMockAlert (mockRes : FetchResult AlertJson)
    (aRes : FetchResult (List AlertJson)) (stRes : FetchResult Status)
    (errMessage : String) (s : AppState) :
    AppState × List Req × Nat :=
  match mockRes with
  | some alertData =>
    let r1 := fetchAlerts aRes s
    let r2 := fetchStatus stRes r1.1
    ({ r2.1 with notif := some (mockSuccessNotif alertData) },
     Req.getMock :: (r1.2 ++ r2.2), 4000)
  | none =>
    ({ s with error := some "Failed to generate mock alert",
              notif := some (mockErrorNotif errMessage) },
     [Req.getMock], 4000)

/-- The callback scheduled by `setTimeout(() => setNotification(null),
4000)`. -/
def dismissNotif (s : AppState) : AppState :=
  { s with notif := none }

/-- The error banner of the main render (App.js lines 341-345): shown
exactly when `error` is truthy, that is a non-empty string, and the
component is past the loading screen (lines 300-309). -/
def errorBannerShown (s : AppState) : Bool :=
  if s.loading then false
  else
    match s.error with
    | some m => !(m = "")
    | none => false

/-- The delay of the polling `setInterval` (App.js line 295). -/
def pollIntervalMs : Nat := 15000

/-- The body of the polling callback (App.js lines 292-295): one GET
/alerts and one GET /status per tick. -/
def pollCallbackReqs : List Req := [Req.getAlerts, Req.getStatus]

/-- The polling requests the dashboard issues at time `t` milliseconds
after mount, when the component unmounts at time `unmountMs`: the
`setInterval` installed by the polling effect fires at every positive
multiple of its delay while installed, and the effect cleanup
(`clearInterval`, App.js line 297) stops it at unmount. -/
def pollRequestsAt (unmountMs t : Nat) : List Req :=
  if 0 < t ∧ t % pollIntervalMs = 0 ∧ t ≤ unmountMs then pollCallbackReqs
  else []

/-- Modelled from the spec: the backend Alert Store with its
`alerts_count` counter (app/backend/server.py is not among the
available sources).  An append stores the alert and increments the
counter; clear-alerts empties the store and resets the counter
atomically. -/
structure ServerState where
  alerts : List AlertJson
  alerts_count : Nat
  is_running : Bool
  platforms : List String
  last_check : Option String

/-- Modelled from the spec: the two mutations of the Alert Store that
touch the alert collection. -/
inductive StoreOp where
  | add (a : AlertJson)
  | clear

/-- Modelled from the spec: applying one store mutation. -/
def applyOp (s : ServerState) : StoreOp → ServerState
  | StoreOp.add a =>
    { s with alerts := s.alerts ++ [a], alerts_count := s.alerts_count + 1 }
  | StoreOp.clear => { s with alerts := [], alerts_count := 0 }

/-- Modelled from the spec: the initial server state, empty store and
zero counter. -/
def serverInit : ServerState :=
  { alerts := []
    alerts_count := 0
    is_running := false
    platforms := []
    last_check := none }

/-- Modelled from the spec: running a sequence of store mutations from
the initial server state. -/
def runOps (ops : List StoreOp) : ServerState :=
  ops.foldl applyOp serverInit

/-- Modelled from the spec: the GET /status response, a MonitoringState
snapshot whose `alerts_count` is the counter. -/
def serverStatus (s : ServerState) : Status :=
  { is_running := s.is_running
    platforms_monitored := some s.platforms
    alerts_count := s.alerts_count
    last_check := s.last_check }

/-- Modelled from the spec: the GET /test/generate-mock-alert endpoint
synthesizes one alert, force-persists it regardless of threshold, and
responds with that persisted Alert under the key `alert`. -/
def serverGenerateMock (s : ServerState) (newAlert : AlertJson) :
    ServerState × AlertJson :=
  (applyOp s (StoreOp.add newAlert), newAlert)

/-- One completed dashboard poll against server state `sv` in which
both fetches succeed: `fetchAlerts` receives the alert list and
`fetchStatus` receives the status snapshot. -/
def completedPoll (sv : ServerState) (s : AppState) : AppState :=
  (fetchStatus (some (serverStatus sv)) (fetchAlerts (some sv.alerts) s).1).1

/-- A click on the Start button: a disabled button delivers no click
event, so the start handler, and with it POST /monitoring/start, runs
only when `disabled={status.is_running}` is false. -/
def clickStart (st : Status) : Option Req :=
  if (renderMonitoringStatus st).startDisabled then none else some Req.postStart

/-- A click on the Stop button: the stop handler, and with it POST
/monitoring/stop, runs only when `disabled={!status.is_running}` is
false. -/
def clickStop (st : Status) : Option Req :=
  if (renderMonitoringStatus st).stopDisabled then none else some Req.postStop

/-- Concrete alert object used to instantiate theorems: all ten spec
fields present, nothing else. -/
def sampleAlertJson : AlertJson := fun k =>
  if k = "id" then some (JVal.str "a-1")
  else if k = "platform" then some (JVal.str "Twitter")
  else if k = "author" then some (JVal.str "eve")
  else if k = "content" then some (JVal.str "threatening text")
  else if k = "url" then some (JVal.str "https://example.com/post/1")
  else if k = "timestamp" then some (JVal.str "2025-01-01T00:00:00Z")
  else if k = "score" then some (JVal.num 1)
  else if k = "threat_level" then some (JVal.str "high")
  else if k = "reason" then some (JVal.str "High toxicity detected")
  else if k = "ai_analysis" then some (JVal.str "Direct threat narrative")
  else none

/-- The same alert object with one extra field outside the spec set. -/
def sampleAlertJsonExtra : AlertJson := fun k =>
  if k = "extra" then some (JVal.str "ignored") else sampleAlertJson k

/-- Helper: a store whose counter equals its length keeps that equality
under any sequence of mutations. -/
theorem storeOps_preserve_count (ops : List StoreOp) :
    ∀ s : ServerState, s.alerts_count = s.alerts.length →
      (ops.foldl applyOp s).alerts_count = (ops.foldl applyOp s).alerts.length := by
  induction ops with
  | nil => intro s h; simpa using h
  | cons op rest ih =>
    intro s h
    cases op with
    | add a =>
      refine ih _ ?_
      simp [applyOp, h]
    | clear =>
      refine ih _ ?_
      simp [applyOp]

/-- C1: a failed GET /alerts or GET /status leaves the previously
fetched alerts and status untouched, sets a non-empty error message
that makes the error banner render, and a subsequent successful fetch
clears the error and replaces the corresponding data. -/
theorem C1_failed_fetch_keeps_last_good (s : AppState)
    (h : s.loading = false) (d : List AlertJson) (st : Status) :
    ((fetchAlerts none s).1.alerts = s.alerts ∧
     (fetchAlerts none s).1.status = s.status ∧
     (fetchAlerts none s).1.error = some "Failed to fetch alerts" ∧
     errorBannerShown (fetchAlerts none s).1 = true) ∧
    ((fetchStatus none s).1.alerts = s.alerts ∧
     (fetchStatus none s).1.status = s.status ∧
     (fetchStatus none s).1.error = some "Failed to fetch status" ∧
     errorBannerShown (fetchStatus none s).1 = true) ∧
    ((fetchAlerts (some d) s).1.alerts = d ∧
     (fetchAlerts (some d) s).1.error = none) ∧
    ((fetchStatus (some st) s).1.status = st ∧
     (fetchStatus (some st) s).1.error = none) := by
  refine ⟨⟨rfl, rfl, rfl, ?_⟩, ⟨rfl, rfl, rfl, ?_⟩, ⟨rfl, rfl⟩, ⟨rfl, rfl⟩⟩ <;>
    simp [errorBannerShown, fetchAlerts, fetchStatus, h]

/-- Witness for C1 at a concrete post-loading state. -/
theorem C1_witness :
    (fetchAlerts none { appInitialState with loading := false }).1.alerts = [] ∧
    errorBannerShown (fetchAlerts none { appInitialState with loading := false }).1 = true :=
  ⟨(C1_failed_fetch_keeps_last_good _ rfl [] initialStatus).1.1,
   (C1_failed_fetch_keeps_last_good { appInitialState with loading := false }
      rfl [] initialStatus).1.2.2.2⟩

/-- C2: the polling interval is exactly 15000 ms; every tick (every
positive multiple of the delay while mounted) issues a GET /alerts and
a GET /status; no polling request is issued after unmount; and polling
requests occur only on ticks. -/
theorem C2_polling_cadence (U : Nat) :
    pollIntervalMs = 15000 ∧
    (∀ n : Nat, 1 ≤ n → pollIntervalMs * n ≤ U →
      pollRequestsAt U (pollIntervalMs * n) = [Req.getAlerts, Req.getStatus]) ∧
    (∀ t : Nat, U < t → pollRequestsAt U t = []) ∧
    (∀ t : Nat, pollRequestsAt U t ≠ [] →
      0 < t ∧ t % pollIntervalMs = 0 ∧ t ≤ U) := by
  refine ⟨rfl, ?_, ?_, ?_⟩
  · intro n hn hle
    have hpos : 0 < pollIntervalMs * n :=
      Nat.mul_pos (by decide) (Nat.lt_of_lt_of_le Nat.zero_lt_one hn)
    simp [pollRequestsAt, pollCallbackReqs, hpos, Nat.mul_mod_right, hle]
  · intro t ht
    have : ¬ t ≤ U := Nat.not_le_of_lt ht
    simp [pollRequestsAt, this]
  · intro t ht
    by_cases hc : 0 < t ∧ t % pollIntervalMs = 0 ∧ t ≤ U
    · exact hc
    · exact absurd (by simp [pollRequestsAt, hc]) ht

/-- Witness for C2: the second tick of a 40-second mount. -/
theorem C2_witness :
    pollRequestsAt 40000 (pollIntervalMs * 2) = [Req.getAlerts, Req.getStatus] ∧
    pollRequestsAt 40000 45000 = [] :=
  ⟨(C2_polling_cadence 40000).2.1 2 (by decide) (by decide),
   (C2_polling_cadence 40000).2.2.1 45000 (by decide)⟩

/-- C3: Start issues POST /monitoring/start and, exactly when the POST
succeeds, a GET /status; Stop issues POST /monitoring/stop and, on
success, a GET /status; a confirmed Clear issues DELETE /alerts and, on
success, a GET /alerts then a GET /status. -/
theorem C3_control_commands (b : Bool) (aRes : FetchResult (List AlertJson))
    (stRes : FetchResult Status) (s : AppState) :
    (startMonitoring b stRes s).2 =
      (if b then [Req.postStart, Req.getStatus] else [Req.postStart]) ∧
    (stopMonitoring b stRes s).2 =
      (if b then [Req.postStop, Req.getStatus] else [Req.postStop]) ∧
    (clearAlerts true b aRes stRes s).2 =
      (if b then [Req.deleteAlerts, Req.getAlerts, Req.getStatus]
       else [Req.deleteAlerts]) := by
  cases b <;> cases aRes <;> cases stRes <;>
    simp [startMonitoring, stopMonitoring, clearAlerts, fetchAlerts, fetchStatus]

/-- C4: the store counter always equals the number of stored alerts
(backend modelled from the spec); hence after a completed poll the two
displayed counts, status.alerts_count and the alert list length, agree,
and after a clear both are zero. -/
theorem C4_alerts_count_agrees (ops : List StoreOp) (s : AppState) :
    (runOps ops).alerts_count = (runOps ops).alerts.length ∧
    (completedPoll (runOps ops) s).status.alerts_count =
      (completedPoll (runOps ops) s).alerts.length ∧
    (completedPoll (runOps (ops ++ [StoreOp.clear])) s).status.alerts_count = 0 ∧
    (completedPoll (runOps (ops ++ [StoreOp.clear])) s).alerts.length = 0 := by
  have hinv : (runOps ops).alerts_count = (runOps ops).alerts.length :=
    storeOps_preserve_count ops serverInit rfl
  refine ⟨hinv, ?_, ?_, ?_⟩
  · simpa [completedPoll, fetchAlerts, fetchStatus, serverStatus] using hinv
  · simp [completedPoll, fetchAlerts, fetchStatus, serverStatus, runOps,
      List.foldl_append, applyOp]
  · simp [completedPoll, fetchAlerts, fetchStatus, runOps,
      List.foldl_append, applyOp]

/-- C5: the alert card render consumes no field outside the ten Alert
fields of section 3 (two alerts agreeing on those ten render
identically), it delivers platform, author, content, url, timestamp,
score, threat level, reason and the conditional AI analysis in its
slots, and every field the component reads is in the spec set. -/
theorem C5_card_reads_only_spec_fields (a b : AlertJson)
    (h : (specAlertFields.all fun k => a k == b k) = true) :
    renderThreatAlert a = renderThreatAlert b ∧
    ((renderThreatAlert a).platformName = a "platform" ∧
     (renderThreatAlert a).authorVal = a "author" ∧
     (renderThreatAlert a).contentVal = a "content" ∧
     (renderThreatAlert a).urlHref = a "url" ∧
     (renderThreatAlert a).timeVal = a "timestamp" ∧
     (renderThreatAlert a).scoreVal = a "score" ∧
     (renderThreatAlert a).levelBadge = a "threat_level" ∧
     (renderThreatAlert a).reasonVal = a "reason" ∧
     (renderThreatAlert a).aiSection =
       (if truthy (a "ai_analysis") then some (a "ai_analysis") else none)) ∧
    cardReadFields.all (fun k => specAlertFields.contains k) = true := by
  simp only [specAlertFields, List.all_cons, List.all_nil, Bool.and_eq_true,
    beq_iff_eq, and_true] at h
  obtain ⟨hid, hplat, hauth, hcont, hurl, hts, hscore, hlevel, hreason, hai⟩ := h
  refine ⟨?_, ⟨rfl, rfl, rfl, rfl, rfl, rfl, rfl, rfl, rfl⟩, by decide⟩
  simp [renderThreatAlert, hplat, hauth, hcont, hurl, hts, hscore, hlevel,
    hreason, hai]

/-- Witness for C5: an alert carrying one extra field renders the same
card as the alert without it. -/
theorem C5_witness :
    renderThreatAlert sampleAlertJson = renderThreatAlert sampleAlertJsonExtra :=
  (C5_card_reads_only_spec_fields sampleAlertJson sampleAlertJsonExtra
    (by decide)).1

/-- C6: the mock endpoint (modelled from the spec) persists one alert,
increments the counter by one and returns that alert under the key
alert; on a successful call the dashboard shows a success popup whose
message names the threat level and platform and whose details name the
score and author, issues the mock GET followed by re-fetches of /alerts
and /status, and schedules the popup dismissal after 4000 ms. -/
theorem C6_generate_mock_alert (alertData : AlertJson)
    (aRes : FetchResult (List AlertJson)) (stRes : FetchResult Status)
    (em : String) (s : AppState) (sv : ServerState) :
    ((serverGenerateMock sv alertData).2 = alertData ∧
     (serverGenerateMock sv alertData).1.alerts = sv.alerts ++ [alertData] ∧
     (serverGenerateMock sv alertData).1.alerts_count = sv.alerts_count + 1) ∧
    ((generateMockAlert (some alertData) aRes stRes em s).1.notif =
       some (mockSuccessNotif alertData) ∧
     (generateMockAlert (some alertData) aRes stRes em s).2.1 =
       [Req.getMock, Req.getAlerts, Req.getStatus] ∧
     (generateMockAlert (some alertData) aRes stRes em s).2.2 = 4000 ∧
     (dismissNotif (generateMockAlert (some alertData) aRes stRes em s).1).notif =
       none) ∧
    (mockSuccessNotif alertData).message =
      [Seg.lit "Created ", Seg.val (alertData "threat_level"),
       Seg.lit " threat alert from ", Seg.val (alertData "platform")] ∧
    (mockSuccessNotif alertData).details =
      [Seg.lit "Score: ", Seg.scorePct (alertData "score"),
       Seg.lit "% | Author: @", Seg.val (alertData "author")] := by
  cases aRes <;> cases stRes <;>
    simp [serverGenerateMock, applyOp, generateMockAlert, fetchAlerts,
      fetchStatus, dismissNotif, mockSuccessNotif]

/-- C7: the AI Analysis section renders exactly when ai_analysis is a
non-empty string; when it is empty the section is omitted while the
rest of the card still renders its usual slots. -/
theorem C7_ai_section_iff_nonempty (a : AlertJson) (t : String)
    (h : a "ai_analysis" = some (JVal.str t)) :
    ((renderThreatAlert a).aiSection.isSome = true ↔ t ≠ "") ∧
    (renderThreatAlert a).aiSection =
      (if t = "" then none else some (some (JVal.str t))) ∧
    (renderThreatAlert a).platformName = a "platform" ∧
    (renderThreatAlert a).authorVal = a "author" ∧
    (renderThreatAlert a).contentVal = a "content" ∧
    (renderThreatAlert a).reasonVal = a "reason" ∧
    (renderThreatAlert a).timeVal = a "timestamp" ∧
    (renderThreatAlert a).urlHref = a "url" := by
  by_cases ht : t = "" <;>
    simp [renderThreatAlert, truthy, h, ht]

/-- Witness for C7 at a concrete alert with a non-empty narrative. -/
theorem C7_witness :
    (renderThreatAlert sampleAlertJson).aiSection.isSome = true ↔
      "Direct threat narrative" ≠ "" :=
  (C7_ai_section_iff_nonempty sampleAlertJson "Direct threat narrative"
    (by decide)).1

/-- C8: a declined confirmation dialog leaves the whole dashboard state
unchanged and issues no request; when the dialog is accepted the first
request issued is the DELETE /alerts. -/
theorem C8_clear_needs_confirmation (delOk : Bool)
    (aRes : FetchResult (List AlertJson)) (stRes : FetchResult Status)
    (s : AppState) :
    clearAlerts false delOk aRes stRes s = (s, []) ∧
    (clearAlerts true delOk aRes stRes s).2.head? = some Req.deleteAlerts := by
  cases delOk <;> simp [clearAlerts, fetchAlerts, fetchStatus]

/-- C9: the MonitoringStatus render is total on partial status objects:
a missing platforms_monitored renders a platform count of 0, a present
list renders its length, a null last_check renders the placeholder, and
before the first successful fetch the displayed status is exactly the
all-idle initial object. -/
theorem C9_status_render_total (st : Status) (l : List String) (t : String) :
    (renderMonitoringStatus { st with platforms_monitored := none }).platformsCount = 0 ∧
    (renderMonitoringStatus { st with platforms_monitored := some l }).platformsCount = l.length ∧
    (renderMonitoringStatus { st with last_check := none }).lastCheck = LastCheckCell.placeholder ∧
    (renderMonitoringStatus { st with last_check := some t }).lastCheck = LastCheckCell.time t ∧
    appInitialState.status =
      { is_running := false, platforms_monitored := some [],
        alerts_count := 0, last_check := none } := by
  refine ⟨rfl, rfl, rfl, rfl, rfl⟩

/-- C10: the Start button is disabled exactly when the displayed status
is running and the Stop button exactly when it is not, so a click
dispatches POST /monitoring/start only while displayed as stopped and
POST /monitoring/stop only while displayed as running. -/
theorem C10_button_guards (st : Status) :
    (renderMonitoringStatus st).startDisabled = st.is_running ∧
    (renderMonitoringStatus st).stopDisabled = !st.is_running ∧
    (st.is_running = true → clickStart st = none) ∧
    (st.is_running = false → clickStop st = none) ∧
    clickStart st = (if st.is_running then none else some Req.postStart) ∧
    clickStop st = (if st.is_running then some Req.postStop else none) := by
  cases h : st.is_running <;>
    simp [renderMonitoringStatus, clickStart, clickStop, h]

/-- Witness for C10 at the two concrete displayed states. -/
theorem C10_witness :
    clickStart { initialStatus with is_running := true } = none ∧
    clickStop initialStatus = none :=
  ⟨(C10_button_guards { initialStatus with is_running := true }).2.2.1 rfl,
   (C10_button_guards initialStatus).2.2.2.1 rfl⟩
